import Mathlib

/-!
Shallow embedding of src/backend/main.py, a FastAPI file-sharing service
with two roles ("ops" uploads office documents, "client" lists and
downloads them).

Modelling conventions:
  - Time is integer seconds (Nat).  `timedelta(minutes=m)` becomes `m * 60`.
  - The JWT layer (python-jose) is modelled by the record `Jwt`: a token
    carries its claims together with the key it was signed with, and
    `jwt_decode` with a secret succeeds exactly when the keys agree
    (signature check) and the token is not expired.  python-jose
    (jose/jwt.py, `_validate_exp`) rejects a token as expired exactly when
    `exp < now` (strict inequality, zero leeway), so a token is still
    accepted at its exact expiry instant; the model mirrors that.
  - The password hasher (passlib `pwd_context`) is an external salted
    primitive; functions that call `verify_password` take the verification
    function as an explicit argument `vp`.
  - The module-level mutable dicts `fake_users_db`, `files_db` and
    `download_tokens_db` become explicit arguments / state
    (association lists; Python dict assignment of a key is modelled by
    consing, so that lookup sees the latest binding).
  - `HTTPException(status_code, detail)` becomes the record
    `HTTPException`; handlers return `Except HTTPException α`.
-/

instance {ε α : Type} [DecidableEq ε] [DecidableEq α] :
    DecidableEq (Except ε α) := fun a b =>
  match a, b with
  | .error e, .error f =>
    if h : e = f then isTrue (congrArg Except.error h)
    else isFalse (fun hh => h (Except.error.inj hh))
  | .error _, .ok _ => isFalse (fun hh => Except.noConfusion hh)
  | .ok _, .error _ => isFalse (fun hh => Except.noConfusion hh)
  | .ok x, .ok y =>
    if h : x = y then isTrue (congrArg Except.ok h)
    else isFalse (fun hh => h (Except.ok.inj hh))

structure UserInDB where
  username : String
  email : String
  full_name : Option String
  disabled : Option Bool
  user_type : String
  hashed_password : String
  deriving DecidableEq

structure FileInfo where
  file_id : String
  filename : String
  uploaded_by : String
  upload_date : String
  file_path : String
  deriving DecidableEq

/-- Entry of `download_tokens_db`.  The source stores
`str(datetime.utcnow() + timedelta(minutes=30))` under the key
`"expires"`; that string is written once and never read back, and we model
the timestamp it denotes as seconds (Nat). -/
structure GrantInfo where
  file_id : String
  user_id : String
  expires : Nat
  deriving DecidableEq

structure HTTPException where
  status_code : Nat
  detail : String
  deriving DecidableEq

/-- Decoded claim set of a bearer token: the payload keys the code reads
via `payload.get("sub")` and `payload.get("user_type")`. -/
structure TokenClaims where
  sub : Option String
  user_type : Option String
  deriving DecidableEq

/-- A signed bearer token.  `key` stands for the HMAC signature: verifying
with a secret succeeds iff the secret equals `key`. -/
structure Jwt where
  sub : Option String
  user_type : Option String
  exp : Nat
  key : String
  deriving DecidableEq

/-- jose `jwt.encode(to_encode, SECRET_KEY, algorithm=ALGORITHM)` on the
payload {sub, user_type, exp}. -/
def jwt_encode (claims : TokenClaims) (exp : Nat) (secret : String) : Jwt :=
  { sub := claims.sub, user_type := claims.user_type, exp := exp, key := secret }

/-- jose `jwt.decode(token, SECRET_KEY, algorithms=[ALGORITHM])` at current
time `now`: signature check, then `_validate_exp`, which raises
ExpiredSignatureError exactly when `exp < now`.  `none` models a raised
JWTError. -/
def jwt_decode (t : Jwt) (secret : String) (now : Nat) : Option TokenClaims :=
  if t.key = secret then
    if t.exp < now then none
    else some { sub := t.sub, user_type := t.user_type }
  else none

def ACCESS_TOKEN_EXPIRE_MINUTES : Nat := 30

/-- main.py `create_access_token`: `expire = utcnow() + expires_delta` when
a delta is given, else `utcnow() + timedelta(minutes=15)`; the claims plus
`exp` are signed with the process secret. -/
def create_access_token (data : TokenClaims) (expires_delta : Option Nat)
    (now : Nat) (secret : String) : Jwt :=
  let expire : Nat :=
    match expires_delta with
    | some d => now + d
    | none => now + 15 * 60
  jwt_encode data expire secret

/-- main.py `get_user`: dictionary lookup returning `UserInDB`. -/
def get_user (db : List (String × UserInDB)) (username : String) :
    Option UserInDB :=
  db.lookup username

/-- main.py `authenticate_user`: username lookup, then
`verify_password(password, user.hashed_password)`; `none` models the
`return False` branches. -/
def authenticate_user (vp : String → String → Bool)
    (db : List (String × UserInDB)) (username password : String) :
    Option UserInDB :=
  match get_user db username with
  | none => none
  | some user => if vp password user.hashed_password then some user else none

def credentials_exception : HTTPException :=
  { status_code := 401, detail := "Could not validate credentials" }

/-- main.py `get_current_user`: decode the bearer token, require both the
`sub` and `user_type` claims to be present, then re-resolve the subject
against the user db and return the STORED record.  Note: the stored
`disabled` flag is never inspected, and the returned `user_type` is the
one recorded in the db, not the one embedded in the token. -/
def get_current_user (db : List (String × UserInDB)) (secret : String)
    (token : Jwt) (now : Nat) : Except HTTPException UserInDB :=
  match jwt_decode token secret now with
  | none => .error credentials_exception
  | some payload =>
    match payload.sub, payload.user_type with
    | some username, some _user_type =>
      match get_user db username with
      | none => .error credentials_exception
      | some user => .ok user
    | _, _ => .error credentials_exception

/-- main.py `get_current_ops_user`: 403 unless the resolved record has
user_type "ops". -/
def get_current_ops_user (db : List (String × UserInDB)) (secret : String)
    (token : Jwt) (now : Nat) : Except HTTPException UserInDB :=
  match get_current_user db secret token now with
  | .error e => .error e
  | .ok user =>
    if user.user_type ≠ "ops" then
      .error { status_code := 403,
               detail := "Only operation users can perform this action" }
    else .ok user

/-- main.py `get_current_client_user`: 403 unless the resolved record has
user_type "client". -/
def get_current_client_user (db : List (String × UserInDB)) (secret : String)
    (token : Jwt) (now : Nat) : Except HTTPException UserInDB :=
  match get_current_user db secret token now with
  | .error e => .error e
  | .ok user =>
    if user.user_type ≠ "client" then
      .error { status_code := 403,
               detail := "Only client users can perform this action" }
    else .ok user

/-- CPython `str.rfind` for a single character: highest index of `c` in
`p`, or -1 when absent. -/
def rfind (p : List Char) (c : Char) : Int :=
  match p.reverse.findIdx? (· = c) with
  | some j => (p.length : Int) - 1 - (j : Int)
  | none => -1

/-- CPython `posixpath.splitext` via `genericpath._splitext` with
sep = '/', no altsep, extsep = '.': locate the last separator and the last
dot; when the dot lies strictly after the separator and some character
strictly between them is not a dot (the "skip all leading dots" loop, so
that dotfiles have no extension), split at the dot; otherwise the
extension is empty. -/
def splitext (p : List Char) : List Char × List Char :=
  let sepIndex := rfind p '/'
  let dotIndex := rfind p '.'
  if sepIndex < dotIndex then
    if ((p.drop (sepIndex + 1).toNat).take (dotIndex - (sepIndex + 1)).toNat).any
        (fun ch => ch ≠ '.') then
      (p.take dotIndex.toNat, p.drop dotIndex.toNat)
    else (p, [])
  else (p, [])

/-- Python `str.lower`, character-wise (all strings involved are ASCII). -/
def lowerStr (s : List Char) : List Char := s.map Char.toLower

def allowed_extensions : List (List Char) :=
  [".pptx".toList, ".docx".toList, ".xlsx".toList]

/-- main.py `validate_file_type`:
`ext = os.path.splitext(filename)[1].lower()`; raise 400 unless
`ext in {".pptx", ".docx", ".xlsx"}`. -/
def validate_file_type (filename : List Char) : Except HTTPException Unit :=
  let ext := lowerStr (splitext filename).2
  if ext ∈ allowed_extensions then .ok ()
  else .error { status_code := 400,
                detail := "Only .pptx, .docx, .xlsx files are allowed" }

structure Token where
  access_token : Jwt
  token_type : String
  deriving DecidableEq

/-- main.py route `POST /token` (`login`): authenticate against the user
db; on failure 401 "Incorrect username or password"; on success issue a
bearer token with `expires_delta = timedelta(minutes=ACCESS_TOKEN_EXPIRE_MINUTES)`
and claims {sub = username, user_type = stored role}. -/
def login (vp : String → String → Bool) (db : List (String × UserInDB))
    (username password : String) (now : Nat) (secret : String) :
    Except HTTPException Token :=
  match authenticate_user vp db username password with
  | none => .error { status_code := 401,
                     detail := "Incorrect username or password" }
  | some user =>
    .ok { access_token :=
            create_access_token
              { sub := some user.username, user_type := some user.user_type }
              (some (ACCESS_TOKEN_EXPIRE_MINUTES * 60)) now secret,
          token_type := "bearer" }

/-- The process-wide mutable tables touched by the download flow. -/
structure ServerState where
  files_db : List (String × FileInfo)
  download_tokens_db : List (String × GrantInfo)
  deriving DecidableEq

/-- main.py route `GET /client/files` (`list_files`): gated by
`get_current_client_user`; returns `list(files_db.values())` in insertion
order. -/
def list_files (db : List (String × UserInDB)) (secret : String)
    (token : Jwt) (now : Nat) (st : ServerState) :
    Except HTTPException (List FileInfo) :=
  match get_current_client_user db secret token now with
  | .error e => .error e
  | .ok _ => .ok (st.files_db.map (·.2))

structure DownloadLinkResponse where
  download_link : String
  message : String
  deriving DecidableEq

/-- main.py route `GET /client/download/{file_id}` (`get_download_link`):
gated by `get_current_client_user`; 404 when the file id is not in
`files_db`; otherwise mint a download token (`download_token` stands for
the fresh `uuid4`), store {file_id, user_id = caller, expires = now+30m}
in `download_tokens_db`, and return the relative redemption path. -/
def get_download_link (db : List (String × UserInDB)) (secret : String)
    (token : Jwt) (now : Nat) (file_id : String) (download_token : String)
    (st : ServerState) :
    Except HTTPException DownloadLinkResponse × ServerState :=
  match get_current_client_user db secret token now with
  | .error e => (.error e, st)
  | .ok user =>
    match st.files_db.lookup file_id with
    | none => (.error { status_code := 404, detail := "File not found" }, st)
    | some _ =>
      let grant : GrantInfo :=
        { file_id := file_id, user_id := user.username,
          expires := now + 30 * 60 }
      (.ok { download_link := "/download-file/" ++ download_token,
             message := "success" },
       { st with download_tokens_db :=
           (download_token, grant) :: st.download_tokens_db })

structure FileResponse where
  path : String
  filename : String
  media_type : String
  deriving DecidableEq

/-- main.py route `GET /download-file/{token}` (`download_file`): no
bearer-token dependency; 404 "Invalid download link" when the token is not
in `download_tokens_db`; 404 "File not found" when the recorded file id is
no longer in `files_db`; otherwise return a `FileResponse` with the stored
path, the original filename and a generic binary media type.  The stored
`expires` field is NOT read, and nothing is removed from either table;
the state component of the result is returned to make that frame
condition a theorem. -/
def download_file (st : ServerState) (token : String) :
    Except HTTPException FileResponse × ServerState :=
  match st.download_tokens_db.lookup token with
  | none => (.error { status_code := 404, detail := "Invalid download link" }, st)
  | some grant =>
    match st.files_db.lookup grant.file_id with
    | none => (.error { status_code := 404, detail := "File not found" }, st)
    | some file_info =>
      (.ok { path := file_info.file_path, filename := file_info.filename,
             media_type := "application/octet-stream" }, st)

/-!
Concrete fixtures.  `fake_users_db` mirrors the module-level store of
main.py; `pwd_context.hash("secret")` is a salted digest, so the hash
strings here are placeholders paired with the verification function `vp0`,
which models `pwd_context.verify` on them.
-/

def opsUser : UserInDB :=
  { username := "opsuser", email := "ops@example.com",
    full_name := some "Operation User", disabled := some false,
    user_type := "ops", hashed_password := "hash-secret" }

def clientUser : UserInDB :=
  { username := "clientuser", email := "client@example.com",
    full_name := some "Client User", disabled := some false,
    user_type := "client", hashed_password := "hash-secret" }

def fake_users_db : List (String × UserInDB) :=
  [("opsuser", opsUser), ("clientuser", clientUser)]

def vp0 : String → String → Bool := fun p h => h == "hash-" ++ p

def q3File : FileInfo :=
  { file_id := "f1", filename := "Q3.xlsx", uploaded_by := "opsuser",
    upload_date := "2026-01-01 00:00:00", file_path := "uploaded_files/f1" }

/-- State holding one file and one download grant for it that expired at
time 100. -/
def expiredGrantState : ServerState :=
  { files_db := [("f1", q3File)],
    download_tokens_db :=
      [("tok1", { file_id := "f1", user_id := "clientuser", expires := 100 })] }

/-- State holding a download grant whose target file id is absent from the
registry. -/
def danglingGrantState : ServerState :=
  { files_db := [],
    download_tokens_db :=
      [("tok2", { file_id := "ghost", user_id := "clientuser", expires := 100 })] }

/-- Store whose record for "u1" carries role "ops" while tokens may embed
a different role claim. -/
def mismatchUser : UserInDB :=
  { username := "u1", email := "u1@example.com", full_name := none,
    disabled := some false, user_type := "ops", hashed_password := "hash-secret" }

def mismatchStore : List (String × UserInDB) := [("u1", mismatchUser)]

/-- A token signed with key "k" for subject "u1" embedding role "client",
although the store records role "ops" for "u1". -/
def c2token : Jwt :=
  { sub := some "u1", user_type := some "client", exp := 1000, key := "k" }

/-- Store record whose disabled flag is set. -/
def disabledUser : UserInDB :=
  { username := "dis", email := "dis@example.com", full_name := none,
    disabled := some true, user_type := "client",
    hashed_password := "hash-secret" }

def disabledStore : List (String × UserInDB) := [("dis", disabledUser)]

def c3token : Jwt :=
  { sub := some "dis", user_type := some "client", exp := 1000, key := "k" }

/-- The token `login` issues for clientuser at time 0 with secret "k". -/
def c4token : Jwt :=
  create_access_token
    { sub := some "clientuser", user_type := some "client" }
    (some (ACCESS_TOKEN_EXPIRE_MINUTES * 60)) 0 "k"

def opsToken : Jwt :=
  { sub := some "opsuser", user_type := some "ops", exp := 1800, key := "k" }

def clientToken : Jwt :=
  { sub := some "clientuser", user_type := some "client", exp := 1800,
    key := "k" }

/-- Helper: `download_file` written as an explicit case split on the two
lookups, with the state returned unchanged. -/
theorem download_file_eq (st : ServerState) (tok : String) :
    download_file st tok =
      ((match st.download_tokens_db.lookup tok with
        | none => .error { status_code := 404, detail := "Invalid download link" }
        | some grant =>
          match st.files_db.lookup grant.file_id with
          | none => .error { status_code := 404, detail := "File not found" }
          | some file_info =>
            .ok { path := file_info.file_path, filename := file_info.filename,
                  media_type := "application/octet-stream" }), st) := by
  cases h1 : st.download_tokens_db.lookup tok with
  | none => simp [download_file, h1]
  | some grant =>
    cases h2 : st.files_db.lookup grant.file_id with
    | none => simp [download_file, h1, h2]
    | some file_info => simp [download_file, h1, h2]

/-- C1: the code never enforces grant expiry.  The grant stored under
"tok1" carries expires = 100, a redemption clock of 200 is strictly later,
yet `download_file` (which reads no clock at all and never consults the
stored expires field) returns the file response instead of NotFound. -/
theorem c1_expired_grant_still_redeems :
    (expiredGrantState.download_tokens_db.lookup "tok1").map GrantInfo.expires
        = some 100 ∧
    100 < 200 ∧
    (download_file expiredGrantState "tok1").1 =
      .ok { path := "uploaded_files/f1", filename := "Q3.xlsx",
            media_type := "application/octet-stream" } := by
  refine ⟨by decide, by decide, by decide⟩

/-- C6: redeeming a grant token fails with 404 when the token is absent
from the grant table; fails with 404 when the token is present but its
recorded file id is not in the registry; and when present and unexpired
returns the byte locator and original filename recorded for the exact file
id the grant was minted against. -/
theorem c6_redeem_characterization :
    ∀ (st : ServerState) (tok : String),
      (st.download_tokens_db.lookup tok = none →
        (download_file st tok).1 =
          .error { status_code := 404, detail := "Invalid download link" }) ∧
      (∀ grant, st.download_tokens_db.lookup tok = some grant →
        st.files_db.lookup grant.file_id = none →
        (download_file st tok).1 =
          .error { status_code := 404, detail := "File not found" }) ∧
      (∀ grant file_info now, st.download_tokens_db.lookup tok = some grant →
        st.files_db.lookup grant.file_id = some file_info →
        now ≤ grant.expires →
        (download_file st tok).1 =
          .ok { path := file_info.file_path, filename := file_info.filename,
                media_type := "application/octet-stream" }) := by
  intro st tok
  refine ⟨fun h => ?_, fun grant h hf => ?_, fun grant file_info now h hf _ => ?_⟩
  · rw [download_file_eq]; simp [h]
  · rw [download_file_eq]; simp [h, hf]
  · rw [download_file_eq]; simp [h, hf]

/-- Witness for C6 at concrete states: an unknown token, a grant whose
file vanished, and a live grant redeemed before its expiry. -/
theorem c6_redeem_characterization_witness :
    (download_file expiredGrantState "nope").1 =
      .error { status_code := 404, detail := "Invalid download link" } ∧
    (download_file danglingGrantState "tok2").1 =
      .error { status_code := 404, detail := "File not found" } ∧
    (download_file expiredGrantState "tok1").1 =
      .ok { path := "uploaded_files/f1", filename := "Q3.xlsx",
            media_type := "application/octet-stream" } :=
  ⟨(c6_redeem_characterization expiredGrantState "nope").1 (by decide),
   (c6_redeem_characterization danglingGrantState "tok2").2.1
     { file_id := "ghost", user_id := "clientuser", expires := 100 }
     (by decide) (by decide),
   (c6_redeem_characterization expiredGrantState "tok1").2.2
     { file_id := "f1", user_id := "clientuser", expires := 100 }
     q3File 50 (by decide) (by decide) (by decide)⟩

/-- C9: redeeming a grant mutates neither the grant table nor the file
registry (the grant is not consumed, so redeeming the same token again
gives the same response), and the response depends only on the file id
recorded under the token, never on the recorded grantee (user_id) or
expiry, so any presenter succeeds. -/
theorem c9_redeem_frame_and_grantee_independence :
    (∀ st tok, (download_file st tok).2 = st) ∧
    (∀ st tok,
      (download_file ((download_file st tok).2) tok).1 =
        (download_file st tok).1) ∧
    (∀ (files : List (String × FileInfo))
       (grants1 grants2 : List (String × GrantInfo)) (tok : String),
      (grants1.lookup tok).map GrantInfo.file_id =
        (grants2.lookup tok).map GrantInfo.file_id →
      (download_file { files_db := files, download_tokens_db := grants1 } tok).1 =
        (download_file { files_db := files, download_tokens_db := grants2 } tok).1) := by
  have frame : ∀ st tok, (download_file st tok).2 = st := by
    intro st tok; rw [download_file_eq]
  refine ⟨frame, fun st tok => by rw [frame st tok], ?_⟩
  intro files grants1 grants2 tok h
  cases h1 : grants1.lookup tok with
  | none =>
    cases h2 : grants2.lookup tok with
    | none => simp [download_file, h1, h2]
    | some g2 => rw [h1, h2] at h; simp at h
  | some g1 =>
    cases h2 : grants2.lookup tok with
    | none => rw [h1, h2] at h; simp at h
    | some g2 =>
      rw [h1, h2] at h
      simp only [Option.map] at h
      have hg : g1.file_id = g2.file_id := Option.some.inj h
      simp only [download_file, h1, h2, hg]
      cases h3 : List.lookup g2.file_id files <;> simp [h3]

/-- Witness for C9's conditional part: two grant tables recording the same
file id under "tok1" but different grantees and expiries give the same
response. -/
theorem c9_witness :
    (download_file
      { files_db := [("f1", q3File)],
        download_tokens_db :=
          [("tok1", { file_id := "f1", user_id := "clientuser", expires := 100 })] }
      "tok1").1 =
    (download_file
      { files_db := [("f1", q3File)],
        download_tokens_db :=
          [("tok1", { file_id := "f1", user_id := "someoneelse", expires := 999999 })] }
      "tok1").1 :=
  c9_redeem_frame_and_grantee_independence.2.2
    [("f1", q3File)]
    [("tok1", { file_id := "f1", user_id := "clientuser", expires := 100 })]
    [("tok1", { file_id := "f1", user_id := "someoneelse", expires := 999999 })]
    "tok1" (by decide)

/-- Helper: the guard succeeds and returns the STORED record whenever the
token decodes with both claims present and the subject resolves in the
store. -/
theorem get_current_user_ok (db : List (String × UserInDB)) (secret : String)
    (t : Jwt) (now : Nat) (u r : String) (user : UserInDB)
    (hdec : jwt_decode t secret now = some { sub := some u, user_type := some r })
    (hget : get_user db u = some user) :
    get_current_user db secret t now = .ok user := by
  simp [get_current_user, hdec, hget]

/-- Helper: decoding a token minted by `create_access_token` with the same
secret at any time up to its expiry instant yields its claims. -/
theorem jwt_decode_create (data : TokenClaims) (d now now2 : Nat)
    (secret : String) (h : now2 ≤ now + d) :
    jwt_decode (create_access_token data (some d) now secret) secret now2 =
      some { sub := data.sub, user_type := data.user_type } := by
  have hlt : ¬ (now + d < now2) := by omega
  simp [jwt_decode, create_access_token, jwt_encode, hlt]

/-- Helper: `login` on a stored user whose password verifies issues the
30-minute token over {sub = username, user_type = stored role}. -/
theorem login_ok (vp : String → String → Bool) (db : List (String × UserInDB))
    (username password : String) (now : Nat) (secret : String)
    (user : UserInDB) (hget : get_user db username = some user)
    (hvp : vp password user.hashed_password = true) :
    login vp db username password now secret =
      .ok { access_token :=
              create_access_token
                { sub := some user.username, user_type := some user.user_type }
                (some (ACCESS_TOKEN_EXPIRE_MINUTES * 60)) now secret,
            token_type := "bearer" } := by
  simp [login, authenticate_user, hget, hvp]

/-- C2 counterexample: `c2token` is validly signed with "k" and unexpired
at time 0 and embeds role "client", but the store records role "ops" for
its subject "u1"; the guard returns the stored record, so the resolved
role is "ops", not the token-embedded "client" the claim promises. -/
theorem c2_counterexample :
    jwt_decode c2token "k" 0 =
      some { sub := some "u1", user_type := some "client" } ∧
    mismatchUser.user_type = "ops" ∧
    get_current_user mismatchStore "k" c2token 0 = .ok mismatchUser ∧
    mismatchUser.user_type ≠ "client" := by
  refine ⟨by decide, by decide, by decide, by decide⟩

/-- C2 amended: the Access Guard re-resolves the subject from the
Credential Store and the resolved record carries the STORE role; when the
token embeds a different role claim, the guard still resolves the store
role, using the embedded claim only for a presence check. -/
theorem c2_amended_guard_resolves_store_role :
    ∀ (db : List (String × UserInDB)) (secret : String) (t : Jwt) (now : Nat)
      (u r : String) (user : UserInDB),
      jwt_decode t secret now = some { sub := some u, user_type := some r } →
      get_user db u = some user →
      r ≠ user.user_type →
      get_current_user db secret t now = .ok user ∧ user.user_type ≠ r :=
  fun db secret t now u r user hdec hget hne =>
    ⟨get_current_user_ok db secret t now u r user hdec hget,
     fun hh => hne hh.symm⟩

/-- Witness for C2 amended at the mismatch fixture. -/
theorem c2_amended_witness :
    get_current_user mismatchStore "k" c2token 0 = .ok mismatchUser ∧
    mismatchUser.user_type ≠ "client" :=
  c2_amended_guard_resolves_store_role mismatchStore "k" c2token 0 "u1"
    "client" mismatchUser (by decide) (by decide) (by decide)

/-- C3 counterexample: `c3token` is validly signed and unexpired, its
subject resolves to a record whose disabled flag is set, yet the guard
returns the record successfully instead of rejecting with 401. -/
theorem c3_counterexample :
    disabledUser.disabled = some true ∧
    get_current_user disabledStore "k" c3token 0 = .ok disabledUser := by
  refine ⟨by decide, by decide⟩

/-- C3 amended: the guard confirms only that the subject still exists in
the Credential Store; the disabled flag is never inspected, so a token for
a disabled account is still resolved successfully. -/
theorem c3_amended_guard_ignores_disabled :
    ∀ (db : List (String × UserInDB)) (secret : String) (t : Jwt) (now : Nat)
      (u r : String) (user : UserInDB),
      jwt_decode t secret now = some { sub := some u, user_type := some r } →
      get_user db u = some user →
      user.disabled = some true →
      get_current_user db secret t now = .ok user :=
  fun db secret t now u r user hdec hget _ =>
    get_current_user_ok db secret t now u r user hdec hget

/-- Witness for C3 amended at the disabled fixture. -/
theorem c3_amended_witness :
    get_current_user disabledStore "k" c3token 0 = .ok disabledUser :=
  c3_amended_guard_ignores_disabled disabledStore "k" c3token 0 "dis"
    "client" disabledUser (by decide) (by decide) (by decide)

/-- C4 counterexample: the token issued at time 0 expires at instant 1800,
yet verifying it exactly AT 1800 still succeeds (python-jose rejects only
when exp < now), and the guard resolves the user; the claim as stated
says verification at the expiry instant fails with Unauthenticated. -/
theorem c4_counterexample :
    c4token.exp = 1800 ∧
    jwt_decode c4token "k" 1800 =
      some { sub := some "clientuser", user_type := some "client" } ∧
    get_current_user fake_users_db "k" c4token 1800 = .ok clientUser := by
  refine ⟨by decide, by decide, by decide⟩

/-- C4 amended: every token issued by `login` expires exactly 30 minutes
after issuance, fixed at mint time; verifying STRICTLY after the expiry
instant fails (and the guard then rejects with 401), while verifying at
the expiry instant or any earlier time does not fail for expiry. -/
theorem c4_amended_expiry :
    ∀ (vp : String → String → Bool) (db : List (String × UserInDB))
      (username password secret : String) (now : Nat) (tok : Token),
      login vp db username password now secret = .ok tok →
      tok.access_token.exp = now + ACCESS_TOKEN_EXPIRE_MINUTES * 60 ∧
      (∀ now2 : Nat, now + ACCESS_TOKEN_EXPIRE_MINUTES * 60 < now2 →
        jwt_decode tok.access_token secret now2 = none ∧
        get_current_user db secret tok.access_token now2 =
          .error credentials_exception) ∧
      (∀ now2 : Nat, now2 ≤ now + ACCESS_TOKEN_EXPIRE_MINUTES * 60 →
        (jwt_decode tok.access_token secret now2).isSome = true) := by
  intro vp db username password secret now tok hlogin
  unfold login at hlogin
  cases hauth : authenticate_user vp db username password with
  | none => rw [hauth] at hlogin; exact absurd hlogin (by simp)
  | some user =>
    rw [hauth] at hlogin
    simp only [Except.ok.injEq] at hlogin
    subst hlogin
    refine ⟨rfl, ?_, ?_⟩
    · intro now2 hgt
      have hdec : jwt_decode
          (create_access_token
            { sub := some user.username, user_type := some user.user_type }
            (some (ACCESS_TOKEN_EXPIRE_MINUTES * 60)) now secret)
          secret now2 = none := by
        simp [jwt_decode, create_access_token, jwt_encode, hgt]
      exact ⟨hdec, by simp [get_current_user, hdec]⟩
    · intro now2 hle
      rw [jwt_decode_create _ _ _ _ _ hle]
      rfl

/-- Witness for C4 amended: the token login issues at time 0 with secret
"k" has expiry instant 1800; at 1801 decoding fails and the guard rejects
with 401; at 1799 decoding succeeds. -/
theorem c4_amended_witness :
    c4token.exp = 0 + ACCESS_TOKEN_EXPIRE_MINUTES * 60 ∧
    (jwt_decode c4token "k" 1801 = none ∧
     get_current_user fake_users_db "k" c4token 1801 =
       .error credentials_exception) ∧
    (jwt_decode c4token "k" 1799).isSome = true :=
  have h := c4_amended_expiry vp0 fake_users_db "clientuser" "secret" "k" 0
    { access_token := c4token, token_type := "bearer" } (by decide)
  ⟨h.1, h.2.1 1801 (by decide), h.2.2 1799 (by decide)⟩

/-- C5: for a stored (username, password) pair whose password verifies
against the stored hash, `login` issues a token which the guard, before
expiry and over the unchanged store, resolves back to exactly that stored
record (hence that username and its stored role). -/
theorem c5_authenticate_guard_roundtrip :
    ∀ (vp : String → String → Bool) (db : List (String × UserInDB))
      (username password secret : String) (now now2 : Nat) (user : UserInDB),
      get_user db username = some user →
      user.username = username →
      vp password user.hashed_password = true →
      now2 ≤ now + ACCESS_TOKEN_EXPIRE_MINUTES * 60 →
      ∃ tok, login vp db username password now secret = .ok tok ∧
        get_current_user db secret tok.access_token now2 = .ok user := by
  intro vp db username password secret now now2 user hget hun hvp hle
  refine ⟨_, login_ok vp db username password now secret user hget hvp, ?_⟩
  refine get_current_user_ok db secret _ now2 user.username user.user_type
    user ?_ ?_
  · exact jwt_decode_create
      { sub := some user.username, user_type := some user.user_type }
      (ACCESS_TOKEN_EXPIRE_MINUTES * 60) now now2 secret hle
  · rw [hun]; exact hget

/-- Witness for C5: clientuser logging in with the stored password at time
0 gets a token the guard resolves back to the clientuser record at time
600. -/
theorem c5_witness :
    ∃ tok, login vp0 fake_users_db "clientuser" "secret" 0 "k" = .ok tok ∧
      get_current_user fake_users_db "k" tok.access_token 600 =
        .ok clientUser :=
  c5_authenticate_guard_roundtrip vp0 fake_users_db "clientuser" "secret"
    "k" 0 600 clientUser (by decide) (by decide) (by decide) (by decide)

/-- C7: with a guard-resolved caller, `get_download_link` rejects with 403
when the caller role is not client; rejects with 404 when the caller is a
client but the file id is not registered; and for a client and a
registered file returns the fresh token packaged as the relative
redemption path while storing the grant {file id, grantee, now+30m}. -/
theorem c7_create_grant_gating :
    ∀ (db : List (String × UserInDB)) (secret : String) (t : Jwt) (now : Nat)
      (fid dtok : String) (st : ServerState) (user : UserInDB),
      get_current_user db secret t now = .ok user →
      (user.user_type ≠ "client" →
        (get_download_link db secret t now fid dtok st).1 =
          .error { status_code := 403,
                   detail := "Only client users can perform this action" }) ∧
      (user.user_type = "client" → st.files_db.lookup fid = none →
        (get_download_link db secret t now fid dtok st).1 =
          .error { status_code := 404, detail := "File not found" }) ∧
      (user.user_type = "client" → ∀ fi, st.files_db.lookup fid = some fi →
        (get_download_link db secret t now fid dtok st).1 =
          .ok { download_link := "/download-file/" ++ dtok,
                message := "success" } ∧
        ((get_download_link db secret t now fid dtok st).2).download_tokens_db.lookup
            dtok =
          some { file_id := fid, user_id := user.username,
                 expires := now + 30 * 60 }) := by
  intro db secret t now fid dtok st user hguard
  refine ⟨fun hne => ?_, fun hcli hnone => ?_, fun hcli fi hsome => ⟨?_, ?_⟩⟩
  · simp [get_download_link, get_current_client_user, hguard, hne]
  · simp [get_download_link, get_current_client_user, hguard, hcli, hnone]
  · simp [get_download_link, get_current_client_user, hguard, hcli, hsome]
  · simp [get_download_link, get_current_client_user, hguard, hcli, hsome,
      List.lookup]

/-- Witness for C7: an ops caller is rejected with 403; a client caller
asking for an unknown id gets 404; a client caller asking for the
registered "f1" gets the redemption path and the grant is stored. -/
theorem c7_witness :
    (get_download_link fake_users_db "k" opsToken 0 "f1" "dl1"
        expiredGrantState).1 =
      .error { status_code := 403,
               detail := "Only client users can perform this action" } ∧
    (get_download_link fake_users_db "k" clientToken 0 "nope" "dl1"
        expiredGrantState).1 =
      .error { status_code := 404, detail := "File not found" } ∧
    ((get_download_link fake_users_db "k" clientToken 0 "f1" "dl1"
        expiredGrantState).1 =
      .ok { download_link := "/download-file/dl1", message := "success" } ∧
     ((get_download_link fake_users_db "k" clientToken 0 "f1" "dl1"
        expiredGrantState).2).download_tokens_db.lookup "dl1" =
      some { file_id := "f1", user_id := "clientuser",
             expires := 0 + 30 * 60 }) := by
  have h1 := (c7_create_grant_gating fake_users_db "k" opsToken 0 "f1" "dl1"
    expiredGrantState opsUser (by decide)).1 (by decide)
  have h2 := (c7_create_grant_gating fake_users_db "k" clientToken 0 "nope"
    "dl1" expiredGrantState clientUser (by decide)).2.1 (by decide) (by decide)
  have h3 := (c7_create_grant_gating fake_users_db "k" clientToken 0 "f1"
    "dl1" expiredGrantState clientUser (by decide)).2.2 (by decide) q3File
    (by decide)
  exact ⟨h1, h2, h3.1.trans (by decide), h3.2⟩

/-- C10: `list_files` is gated to the client role: a caller the guard
resolves to an ops record is rejected with 403, and a client record
receives the file records in insertion order. -/
theorem c10_list_files_client_only :
    ∀ (db : List (String × UserInDB)) (secret : String) (t : Jwt) (now : Nat)
      (st : ServerState) (user : UserInDB),
      get_current_user db secret t now = .ok user →
      (user.user_type = "ops" →
        list_files db secret t now st =
          .error { status_code := 403,
                   detail := "Only client users can perform this action" }) ∧
      (user.user_type = "client" →
        list_files db secret t now st = .ok (st.files_db.map (·.2))) := by
  intro db secret t now st user hguard
  constructor
  · intro hops
    simp [list_files, get_current_client_user, hguard, hops]
  · intro hcli
    simp [list_files, get_current_client_user, hguard, hcli]

/-- Witness for C10: the ops bearer token is rejected with 403 while the
client bearer token receives the single stored record. -/
theorem c10_witness :
    list_files fake_users_db "k" opsToken 0 expiredGrantState =
      .error { status_code := 403,
               detail := "Only client users can perform this action" } ∧
    list_files fake_users_db "k" clientToken 0 expiredGrantState =
      .ok [q3File] :=
  ⟨(c10_list_files_client_only fake_users_db "k" opsToken 0 expiredGrantState
      opsUser (by decide)).1 (by decide),
   ((c10_list_files_client_only fake_users_db "k" clientToken 0
      expiredGrantState clientUser (by decide)).2 (by decide)).trans
     (by decide)⟩

/-- Helper: `splitext` splits the filename: stem and extension concatenate
back to it. -/
theorem splitext_fst_append_snd (p : List Char) :
    (splitext p).1 ++ (splitext p).2 = p := by
  simp only [splitext]
  split_ifs <;> simp [List.take_append_drop]

/-- Helper: acceptance is exactly lowercased-extension membership in the
allowed set. -/
theorem validate_file_type_ok_iff (f : List Char) :
    validate_file_type f = .ok () ↔
      lowerStr (splitext f).2 ∈ allowed_extensions := by
  simp only [validate_file_type]
  split_ifs with h <;> simp [h]

/-- Helper: the only rejection is the 400 UnsupportedFileType response. -/
theorem validate_file_type_cases (f : List Char) :
    validate_file_type f = .ok () ∨
      validate_file_type f =
        .error { status_code := 400,
                 detail := "Only .pptx, .docx, .xlsx files are allowed" } := by
  simp only [validate_file_type]
  split_ifs <;> simp

/-- Helper: an accepted filename, lowercased, ends in one of the three
allowed suffixes. -/
theorem validate_file_type_ok_suffix (f : List Char)
    (h : validate_file_type f = .ok ()) :
    ∃ a, lowerStr f = a ++ ".pptx".toList ∨ lowerStr f = a ++ ".docx".toList ∨
      lowerStr f = a ++ ".xlsx".toList := by
  have hm := (validate_file_type_ok_iff f).mp h
  refine ⟨lowerStr (splitext f).1, ?_⟩
  have hsplit : lowerStr f =
      lowerStr (splitext f).1 ++ lowerStr (splitext f).2 := by
    rw [lowerStr, lowerStr, lowerStr, ← List.map_append, splitext_fst_append_snd]
  simp only [allowed_extensions, List.mem_cons, List.not_mem_nil, or_false,
    List.mem_singleton] at hm
  rcases hm with hm | hm | hm
  · exact Or.inl (by rw [hsplit, hm])
  · exact Or.inr (Or.inl (by rw [hsplit, hm]))
  · exact Or.inr (Or.inr (by rw [hsplit, hm]))

/-- C8: `validate_file_type` accepts a filename exactly when its extension
(the `os.path.splitext` suffix), compared case-insensitively, is one of
.pptx / .docx / .xlsx, and every other filename is rejected with the 400
UnsupportedFileType response; acceptance forces the lowercased filename to
end in one of the three suffixes; in particular Report.PPTX is accepted
while a .pdf name and an extension-less name are rejected. -/
theorem c8_validate_file_type_extension_gate :
    (∀ f : List Char,
      validate_file_type f = .ok () ↔
        lowerStr (splitext f).2 ∈ allowed_extensions) ∧
    (∀ f : List Char,
      validate_file_type f = .ok () ∨
        validate_file_type f =
          .error { status_code := 400,
                   detail := "Only .pptx, .docx, .xlsx files are allowed" }) ∧
    (∀ f : List Char, validate_file_type f = .ok () →
      ∃ a, lowerStr f = a ++ ".pptx".toList ∨
        lowerStr f = a ++ ".docx".toList ∨
        lowerStr f = a ++ ".xlsx".toList) ∧
    validate_file_type "Report.PPTX".toList = .ok () ∧
    validate_file_type "deck.pptx".toList = .ok () ∧
    validate_file_type "doc.docx".toList = .ok () ∧
    validate_file_type "sheet.xlsx".toList = .ok () ∧
    validate_file_type "a.pdf".toList ≠ .ok () ∧
    validate_file_type "apptx".toList ≠ .ok () :=
  ⟨validate_file_type_ok_iff, validate_file_type_cases,
   validate_file_type_ok_suffix, by decide, by decide, by decide, by decide,
   by decide, by decide⟩

/-- Witness for C8 at a concrete filename with an uppercase extension. -/
theorem c8_witness :
    ∃ a, lowerStr "Budget.XLSX".toList = a ++ ".pptx".toList ∨
      lowerStr "Budget.XLSX".toList = a ++ ".docx".toList ∨
      lowerStr "Budget.XLSX".toList = a ++ ".xlsx".toList :=
  c8_validate_file_type_extension_gate.2.2.1 "Budget.XLSX".toList (by decide)
